import Mathlib

/-!
# Ledger logic of `src/bot.py` (Gmail Buy Bot), shallowly embedded

This file embeds the `Database` class of `src/bot.py` — the promo, balance,
submission, withdrawal and settings operations — together with the two
handler-level guards that carry business logic (`show_daily_bonus` and
`enter_withdraw_amount`), and proves or refutes the frozen claims about them.

Modelling conventions:
* SQLite `REAL` money columns are rationals (`ℚ`); `INTEGER` counters are `ℤ`
  or `ℕ`; `TIMESTAMP` columns never read back are `ℤ` (seconds), while
  `last_daily_claim` — the one timestamp the logic parses back — is a
  `Timestamp` carrying also the `microsecond` field, because the store/parse
  round-trip of the daily-bonus flow hinges on it.  `TEXT` settings values
  are stored parsed (the source stores `str(value)` and reads
  `float(value)`, which round-trips).
* Each table is a list of rows; `cursor.execute('UPDATE ... WHERE k = ?')`
  becomes a `List.map` touching the matching rows, `SELECT ... WHERE k = ?`
  with `fetchone` becomes `List.find?`.
* `AUTOINCREMENT` ids are modelled by counters carried in the state.
* `CURRENT_TIMESTAMP` defaults are passed in as an explicit `now` argument.
-/

/-- A `datetime.datetime` value as the daily-bonus flow handles one: whole
seconds (from an arbitrary epoch) plus the `microsecond` field.  sqlite3
binds such a value through its default datetime adapter, which writes the
TEXT `YYYY-MM-DD HH:MM:SS.ffffff` — the `.ffffff` suffix present exactly
when `microseconds` is nonzero (the generic case for `datetime.now()`). -/
structure Timestamp where
  seconds : ℤ
  microseconds : ℕ
  deriving Repr, DecidableEq

/-- A row of the `users` table (`create_tables`, src/bot.py lines 143-159). -/
structure UserRow where
  user_id : Nat
  username : String
  first_name : String
  balance : ℚ
  gmail_sell_count : ℤ
  total_withdraw : ℚ
  is_admin : Bool
  is_banned : Bool
  last_daily_claim : Option Timestamp
  join_date : ℤ
  referral_code : String
  referred_by : Option Nat
  referral_earnings : ℚ
  deriving Repr, DecidableEq

/-- A row of the `gmail_submissions` table (src/bot.py lines 162-173). -/
structure SubmissionRow where
  id : Nat
  user_id : Nat
  gmail : String
  password : String
  amount : ℚ
  status : String
  submission_date : ℤ
  reject_reason : Option String
  deriving Repr, DecidableEq

/-- A row of the `withdrawals` table (src/bot.py lines 176-186). -/
structure WithdrawalRow where
  id : Nat
  user_id : Nat
  amount : ℚ
  method : String
  number : String
  status : String
  request_date : ℤ
  deriving Repr, DecidableEq

/-- A row of the `promo_codes` table (src/bot.py lines 201-208). -/
structure PromoRow where
  code : String
  amount : ℚ
  uses_left : ℤ
  is_active : Bool
  deriving Repr, DecidableEq

/-- The mutable database state: the tables the claims touch, plus the
`AUTOINCREMENT` counters for the two tables whose fresh ids matter. -/
structure DB where
  users : List UserRow
  gmail_submissions : List SubmissionRow
  withdrawals : List WithdrawalRow
  promo_codes : List PromoRow
  settings : List (String × ℚ)
  next_withdrawal_id : Nat
  next_submission_id : Nat
  deriving Repr, DecidableEq

/-- The four default settings rows seeded by `create_tables`
(src/bot.py lines 228-231): `INSERT OR IGNORE INTO settings VALUES
('min_withdraw','100.0'), ('gmail_price','5.0'),
('referral_commission','5.0'), ('daily_bonus_amount','2.0')`. -/
def initial_settings : List (String × ℚ) :=
  [("min_withdraw", 100), ("gmail_price", 5),
   ("referral_commission", 5), ("daily_bonus_amount", 2)]

/-- `Database.get_user` (src/bot.py lines 274-277):
`SELECT * FROM users WHERE user_id = ?`, `fetchone`. -/
def get_user (db : DB) (uid : Nat) : Option UserRow :=
  db.users.find? (fun u => u.user_id == uid)

/-- `Database.get_user_balance` (src/bot.py lines 390-392):
`SELECT balance FROM users WHERE user_id=?`; `r[0] if r else 0`. -/
def get_user_balance (db : DB) (uid : Nat) : ℚ :=
  match db.users.find? (fun u => u.user_id == uid) with
  | some r => r.balance
  | none => 0

/-- `Database.update_balance` (src/bot.py lines 299-301):
`UPDATE users SET balance = balance + ? WHERE user_id = ?`. -/
def update_balance (db : DB) (uid : Nat) (amount : ℚ) : DB :=
  { db with users := db.users.map (fun u =>
      if u.user_id == uid then { u with balance := u.balance + amount } else u) }

/-- `Database.get_setting` (src/bot.py lines 319-323):
`SELECT value FROM settings WHERE key = ?`;
`float(result[0]) if result else None`. -/
def get_setting (db : DB) (key : String) : Option ℚ :=
  match db.settings.find? (fun kv => kv.1 == key) with
  | some kv => some kv.2
  | none => none

/-- `Database.update_setting` (src/bot.py lines 314-317):
`INSERT OR REPLACE INTO settings (key, value) VALUES (?, ?)`. -/
def update_setting (db : DB) (key : String) (value : ℚ) : DB :=
  if db.settings.any (fun kv => kv.1 == key) then
    { db with settings := db.settings.map (fun kv =>
        if kv.1 == key then (key, value) else kv) }
  else
    { db with settings := db.settings ++ [(key, value)] }

/-- `Database.use_promo_code` (src/bot.py lines 260-271): look the code up
with `WHERE code = ? AND is_active = TRUE`; absent → `(False, "Invalid
Code")`; `uses_left <= 0` → `(False, "Code Expired")`; otherwise decrement
`uses_left` and credit `promo['amount']` via `update_balance`. -/
def use_promo_code (db : DB) (code : String) (uid : Nat) : (Bool × String) × DB :=
  match db.promo_codes.find? (fun p => p.code == code && p.is_active) with
  | none => ((false, "Invalid Code"), db)
  | some promo =>
    if promo.uses_left ≤ 0 then ((false, "Code Expired"), db)
    else
      let db1 : DB := { db with promo_codes := db.promo_codes.map (fun p =>
        if p.code == code then { p with uses_left := p.uses_left - 1 } else p) }
      ((true, "Success"), update_balance db1 uid promo.amount)

/-- `Database.add_gmail_submission` (src/bot.py lines 326-332): the `INSERT`
succeeds unless the `UNIQUE` constraint on `gmail` fires, in which case the
caught exception yields `False` and nothing is written. -/
def add_gmail_submission (db : DB) (uid : Nat) (gmail password : String)
    (amount : ℚ) (now : ℤ) : Bool × DB :=
  if db.gmail_submissions.any (fun s => s.gmail == gmail) then (false, db)
  else
    (true, { db with
      gmail_submissions := db.gmail_submissions ++
        [{ id := db.next_submission_id, user_id := uid, gmail := gmail,
           password := password, amount := amount, status := "pending",
           submission_date := now, reject_reason := none }],
      next_submission_id := db.next_submission_id + 1 })

/-- `Database.get_gmail_by_id` (src/bot.py lines 339-340). -/
def get_gmail_by_id (db : DB) (gid : Nat) : Option SubmissionRow :=
  db.gmail_submissions.find? (fun s => s.id == gid)

/-- `UPDATE users SET gmail_sell_count = gmail_sell_count + d WHERE user_id = ?`
(the two inline statements of `update_gmail_status`, src/bot.py lines 351
and 354, with `d = 1` and `d = -1`). -/
def update_sell_count (db : DB) (uid : Nat) (d : ℤ) : DB :=
  { db with users := db.users.map (fun u =>
      if u.user_id == uid then
        { u with gmail_sell_count := u.gmail_sell_count + d } else u) }

/-- `Database.update_gmail_status` (src/bot.py lines 342-357): fetch the row
(`False` if absent), overwrite `status` and `reject_reason`, then — branching
on the NEW status, and on the OLD status only for the rejected branch —
apply the balance / sell-count side effects. -/
def update_gmail_status (db : DB) (gid : Nat) (status : String)
    (reason : Option String) : Bool × DB :=
  match get_gmail_by_id db gid with
  | none => (false, db)
  | some g =>
    let db1 : DB := { db with gmail_submissions :=
      db.gmail_submissions.map (fun s => if s.id == gid then
        { s with status := status, reject_reason := reason } else s) }
    if status == "success" then
      (true, update_sell_count (update_balance db1 g.user_id g.amount) g.user_id 1)
    else if status == "rejected" && g.status == "success" then
      (true, update_sell_count (update_balance db1 g.user_id (-g.amount)) g.user_id (-1))
    else
      (true, db1)

/-- `Database.add_withdrawal` (src/bot.py lines 360-366): `None` when the
balance is short (`bal < amt`), otherwise deduct `amt`, insert the pending
row and return `last_insert_rowid()`. -/
def add_withdrawal (db : DB) (uid : Nat) (amt : ℚ) (method num : String)
    (now : ℤ) : Option Nat × DB :=
  if get_user_balance db uid < amt then (none, db)
  else
    (some db.next_withdrawal_id,
     { db with
       users := db.users.map (fun u =>
         if u.user_id == uid then { u with balance := u.balance - amt } else u),
       withdrawals := db.withdrawals ++
         [{ id := db.next_withdrawal_id, user_id := uid, amount := amt,
            method := method, number := num, status := "pending",
            request_date := now }],
       next_withdrawal_id := db.next_withdrawal_id + 1 })

/-- `Database.get_withdrawal_by_id` (src/bot.py lines 373-374). -/
def get_withdrawal_by_id (db : DB) (wid : Nat) : Option WithdrawalRow :=
  db.withdrawals.find? (fun w => w.id == wid)

/-- `Database.update_withdrawal_status` (src/bot.py lines 376-387): fetch the
row (`False` if absent); on `rejected` refund `w['amount']` to the balance,
on `success` add it to `total_withdraw`; then overwrite the row's status. -/
def update_withdrawal_status (db : DB) (wid : Nat) (status : String) : Bool × DB :=
  match get_withdrawal_by_id db wid with
  | none => (false, db)
  | some w =>
    let db1 : DB :=
      if status == "rejected" then
        update_balance db w.user_id w.amount
      else if status == "success" then
        { db with users := db.users.map (fun u =>
            if u.user_id == w.user_id then
              { u with total_withdraw := u.total_withdraw + w.amount } else u) }
      else db
    (true, { db1 with withdrawals := db1.withdrawals.map (fun x =>
        if x.id == wid then { x with status := status } else x) })

/-- Python's `(now - last).days` for a difference given in seconds:
`timedelta` normalizes with floor division by 86400. -/
def timedelta_days (delta : ℤ) : ℤ := Int.fdiv delta 86400

/-- `UPDATE users SET last_daily_claim=? WHERE user_id=?`
(src/bot.py lines 572 and 580): the full `datetime.now()` value, its
microsecond field included, goes through the adapter into the row. -/
def set_last_daily_claim (db : DB) (uid : Nat) (now : Timestamp) : DB :=
  { db with users := db.users.map (fun u =>
      if u.user_id == uid then { u with last_daily_claim := some now } else u) }

/-- `datetime.datetime.strptime(text, '%Y-%m-%d %H:%M:%S')` applied to the
stored text of `t` (src/bot.py line 576): the format has no
fractional-seconds directive, so the parse returns the whole-second value
exactly when the stored text carries no `.ffffff` suffix — that is, when
`t.microseconds = 0` — and raises ValueError ("unconverted data remains")
otherwise. -/
def strptime_no_fraction (t : Timestamp) : Option ℤ :=
  if t.microseconds = 0 then some t.seconds else none

/-- The business logic of `GmailBuyBot.show_daily_bonus` (src/bot.py lines
566-584): a first-ever claim credits the `daily_bonus_amount` setting and
stamps `last_daily_claim := now`; otherwise the stored text is parsed back
with `strptime(..., '%Y-%m-%d %H:%M:%S')`, and on a successful parse
`(now - last).days >= 1` credits again while a smaller difference answers
"Already claimed".  `none` models the paths on which the handler raises:
the user row absent (`user['last_daily_claim']` on `None`), the strptime
ValueError on a stored text with a fractional-seconds suffix, and the
setting absent (a `None` credit).  In the day test, `last` is whole seconds
and `0 ≤ now.microseconds < 10 ^ 6`, so the fractional part of the
difference can never lift its floor over the threshold: comparing the
seconds alone is exact. -/
def show_daily_bonus (db : DB) (uid : Nat) (now : Timestamp) :
    Option (Bool × DB) :=
  match get_user db uid with
  | none => none
  | some user =>
    match user.last_daily_claim with
    | none =>
      match get_setting db "daily_bonus_amount" with
      | none => none
      | some amt =>
        some (true, set_last_daily_claim (update_balance db uid amt) uid now)
    | some lastStored =>
      match strptime_no_fraction lastStored with
      | none => none
      | some last =>
        if 1 ≤ timedelta_days (now.seconds - last) then
          match get_setting db "daily_bonus_amount" with
          | none => none
          | some amt =>
            some (true, set_last_daily_claim (update_balance db uid amt) uid now)
        else some (false, db)

/-- The withdrawal-request flow as the handlers wire it:
`GmailBuyBot.enter_withdraw_amount` (src/bot.py lines 839-842) refuses
`amt < 100 or amt > db.get_user_balance(...)` — note the literal `100`, not
the `min_withdraw` setting — and `enter_withdraw_number` (lines 844-847)
then calls `Database.add_withdrawal`. -/
def request_withdrawal (db : DB) (uid : Nat) (amt : ℚ) (method num : String)
    (now : ℤ) : Option Nat × DB :=
  if amt < 100 ∨ get_user_balance db uid < amt then (none, db)
  else add_withdrawal db uid amt method num now

/-- Observer: a user's `gmail_sell_count`, `0` for a missing row. -/
def get_user_sell_count (db : DB) (uid : Nat) : ℤ :=
  match get_user db uid with
  | some u => u.gmail_sell_count
  | none => 0

/-! ## Concrete states for the counterexample, failing-input and witness
theorems -/

/-- A baseline user row (fields as `create_user` would leave them). -/
def baseUser : UserRow :=
  { user_id := 7, username := "alice", first_name := "Alice", balance := 0,
    gmail_sell_count := 0, total_withdraw := 0, is_admin := false,
    is_banned := false, last_daily_claim := none, join_date := 0,
    referral_code := "ABCD1234", referred_by := none, referral_earnings := 0 }

/-- The store right after `create_tables`: empty tables, the four seeded
settings rows. -/
def emptyDB : DB :=
  { users := [], gmail_submissions := [], withdrawals := [], promo_codes := [],
    settings := initial_settings, next_withdrawal_id := 1,
    next_submission_id := 1 }

/-- State for C1: user 7 owns submission 1, already approved (status
`success`, its 5.0 credit already on the balance, `gmail_sell_count` 1). -/
def dbC1 : DB := { emptyDB with
  users := [{ baseUser with balance := 5, gmail_sell_count := 1 }],
  gmail_submissions :=
    [{ id := 1, user_id := 7, gmail := "a@gmail.com", password := "pw",
       amount := 5, status := "success", submission_date := 0,
       reject_reason := none }],
  next_submission_id := 2 }

/-- State for C2: withdrawal 1 of user 7 is already terminal (`rejected`),
its 50.0 already refunded into the balance of 100. -/
def dbC2 : DB := { emptyDB with
  users := [{ baseUser with balance := 100 }],
  withdrawals :=
    [{ id := 1, user_id := 7, amount := 50, method := "bKash",
       number := "017", status := "rejected", request_date := 0 }],
  next_withdrawal_id := 2 }

/-- State for C3: user 7 is banned and holds 100.0; an active one-use promo
code exists. -/
def dbC3 : DB := { emptyDB with
  users := [{ baseUser with balance := 100, is_banned := true }],
  promo_codes :=
    [{ code := "SAVE10", amount := 10, uses_left := 1, is_active := true }] }

/-- State for C4: user 7 holds 200.0. -/
def dbC4 : DB := { emptyDB with users := [{ baseUser with balance := 200 }] }

/-- State for C5: user 7 holds 1000.0 and an admin has raised the
`min_withdraw` setting to 200 through `update_setting`. -/
def dbC5 : DB :=
  update_setting { emptyDB with users := [{ baseUser with balance := 1000 }] }
    "min_withdraw" 200

/-- State for C6: the promo code exists and is active but `uses_left` is 0. -/
def dbC6 : DB := { emptyDB with
  promo_codes :=
    [{ code := "SAVE10", amount := 10, uses_left := 0, is_active := true }] }

/-- State for C7: a settings store with no rows at all. -/
def dbC7 : DB := { emptyDB with settings := [] }

/-- State for C8: user 7 exists and has never claimed the daily bonus. -/
def dbC8 : DB := { emptyDB with users := [baseUser] }

/-- State for C8 after user 7's first claim, made at a `datetime.now()`
whose microsecond field is nonzero (the generic case): the seeded 2.0
credited, the timestamp stored through the adapter with its `.ffffff`
suffix. -/
def dbC8b : DB := { emptyDB with
  users :=
    [{ baseUser with
        balance := 2, last_daily_claim := some ⟨0, 123456⟩ }] }

/-- State for C9: user 7 holds the credit of approved submission 1 (amount
5.0 snapshotted) while the `gmail_price` setting has since been raised
to 9. -/
def dbC9 : DB :=
  update_setting dbC1 "gmail_price" 9

/-- State for C10: the only user row is user 7; an active promo code with 3
uses remains. -/
def dbC10 : DB := { emptyDB with
  users := [baseUser],
  promo_codes :=
    [{ code := "BONUS5", amount := 5, uses_left := 3, is_active := true }] }

/-! ## Store lemmas -/

/-- A keyed `UPDATE users ... WHERE user_id = ?` step commutes with the keyed
`SELECT`: looking the key up afterwards finds the updated row. -/
theorem find?_user_map (uid : Nat) (g : UserRow → UserRow)
    (hg : ∀ u, (g u).user_id = u.user_id) :
    ∀ l : List UserRow,
      (l.map (fun u => if u.user_id == uid then g u else u)).find?
          (fun u => u.user_id == uid)
        = (l.find? (fun u => u.user_id == uid)).map g
  | [] => rfl
  | a :: l => by
    by_cases hp : (a.user_id == uid) = true
    · rw [List.map_cons, if_pos hp,
        List.find?_cons_of_pos (p := fun u : UserRow => u.user_id == uid) _
          (show ((g a).user_id == uid) = true by rw [hg a]; exact hp),
        List.find?_cons_of_pos (p := fun u : UserRow => u.user_id == uid) _ hp]
      rfl
    · rw [List.map_cons, if_neg hp,
        List.find?_cons_of_neg (p := fun u : UserRow => u.user_id == uid) _ hp,
        List.find?_cons_of_neg (p := fun u : UserRow => u.user_id == uid) _ hp]
      exact find?_user_map uid g hg l

/-- A keyed `UPDATE` whose key matches no row leaves the table unchanged. -/
theorem map_if_id {α : Type} (p : α → Bool) (g : α → α) :
    ∀ l : List α, (∀ x ∈ l, p x = false) →
      (l.map fun x => if p x then g x else x) = l
  | [], _ => rfl
  | a :: l, h => by
    rw [List.map_cons,
      if_neg (by rw [h a (List.mem_cons_self a l)]; exact Bool.false_ne_true),
      map_if_id p g l (fun x hx => h x (List.mem_cons_of_mem a hx))]

/-- Looking up a user after `update_balance` on that user. -/
theorem get_user_update_balance (db : DB) (uid : Nat) (amt : ℚ) (u : UserRow)
    (hu : get_user db uid = some u) :
    get_user (update_balance db uid amt) uid
      = some { u with balance := u.balance + amt } := by
  have h := find?_user_map uid
    (fun v => { v with balance := v.balance + amt }) (fun v => rfl) db.users
  unfold get_user at hu ⊢
  unfold update_balance
  dsimp only
  rw [h, hu]
  rfl

/-- Looking up a user after the `gmail_sell_count` update on that user. -/
theorem get_user_update_sell_count (db : DB) (uid : Nat) (d : ℤ) (u : UserRow)
    (hu : get_user db uid = some u) :
    get_user (update_sell_count db uid d) uid
      = some { u with gmail_sell_count := u.gmail_sell_count + d } := by
  have h := find?_user_map uid
    (fun v => { v with gmail_sell_count := v.gmail_sell_count + d })
    (fun v => rfl) db.users
  unfold get_user at hu ⊢
  unfold update_sell_count
  dsimp only
  rw [h, hu]
  rfl

/-- Looking up a user after the `last_daily_claim` stamp on that user. -/
theorem get_user_set_last_claim (db : DB) (uid : Nat) (now : Timestamp)
    (u : UserRow)
    (hu : get_user db uid = some u) :
    get_user (set_last_daily_claim db uid now) uid
      = some { u with last_daily_claim := some now } := by
  have h := find?_user_map uid
    (fun v => { v with last_daily_claim := some now }) (fun v => rfl) db.users
  unfold get_user at hu ⊢
  unfold set_last_daily_claim
  dsimp only
  rw [h, hu]
  rfl

/-- `get_user_balance` through a successful `get_user`. -/
theorem get_user_balance_of_get_user {db : DB} {uid : Nat} {u : UserRow}
    (hu : get_user db uid = some u) : get_user_balance db uid = u.balance := by
  unfold get_user at hu
  unfold get_user_balance
  rw [hu]

/-- `get_user_sell_count` through a successful `get_user`. -/
theorem get_user_sell_count_of_get_user {db : DB} {uid : Nat} {u : UserRow}
    (hu : get_user db uid = some u) :
    get_user_sell_count db uid = u.gmail_sell_count := by
  unfold get_user_sell_count
  rw [hu]

/-- The source's day test `(now - last).days >= 1` holds exactly when at
least 24 hours (86400 seconds) have elapsed. -/
theorem timedelta_days_ge_one_iff (last now : ℤ) :
    1 ≤ timedelta_days (now - last) ↔ last + 86400 ≤ now := by
  unfold timedelta_days
  rw [Int.fdiv_eq_ediv _ (by norm_num), Int.le_ediv_iff_mul_le (by norm_num)]
  omega

/-! ## The claims -/

/-- **C1** (code bug, failing input). The spec demands that re-approving an
already-`success` submission leave balance and `gmail_sell_count` unchanged
(credit applied exactly once in total).  `update_gmail_status` branches on
the NEW status only when crediting, so approving submission 1 of `dbC1` —
already `success`, its 5.0 already credited (balance 5, count 1) — credits
again: balance 10, `gmail_sell_count` 2. -/
theorem C1_approve_again_credits_again :
    (update_gmail_status dbC1 1 "success" none).1 = true ∧
    get_user_balance (update_gmail_status dbC1 1 "success" none).2 7 = 10 ∧
    get_user_sell_count (update_gmail_status dbC1 1 "success" none).2 7 = 2 := by
  refine ⟨?_, ?_, ?_⟩ <;> with_unfolding_all rfl

/-- **C2** (code bug, failing input). The spec demands that a review of a
terminal withdrawal fail with InvalidState and change nothing.
`update_withdrawal_status` never inspects the current status: rejecting
withdrawal 1 of `dbC2` — already `rejected`, its 50.0 already refunded
(balance 100) — reports success and refunds again (balance 150). -/
theorem C2_reject_terminal_refunds_again :
    (update_withdrawal_status dbC2 1 "rejected").1 = true ∧
    get_user_balance (update_withdrawal_status dbC2 1 "rejected").2 7 = 150 := by
  refine ⟨?_, ?_⟩ <;> with_unfolding_all rfl

/-- **C3** (code bug, failing input). The spec demands that a banned user's
submit / withdraw / redeem all fail with Banned before any other check.
None of `use_promo_code`, `add_withdrawal`, `add_gmail_submission` ever
reads `is_banned`: in `dbC3`, where user 7 is banned, the promo redemption
succeeds and credits the balance, the withdrawal is created, and the
submission is inserted. -/
theorem C3_banned_user_can_still_mutate :
    (use_promo_code dbC3 "SAVE10" 7).1.1 = true ∧
    get_user_balance (use_promo_code dbC3 "SAVE10" 7).2 7 = 110 ∧
    (add_withdrawal dbC3 7 100 "bKash" "017" 0).1 = some 1 ∧
    (add_gmail_submission dbC3 7 "b@gmail.com" "pw" 5 0).1 = true := by
  refine ⟨?_, ?_, ?_, ?_⟩ <;> with_unfolding_all rfl

/-- **C5** (code bug, failing input). The spec demands that a withdrawal be
created only when the amount is at least the CURRENT `min_withdraw`
setting.  The guard in `enter_withdraw_amount` compares against the literal
`100`, never reading the setting: in `dbC5` the setting has been raised to
200, yet a request for 150 is accepted and the pending record created. -/
theorem C5_min_withdraw_setting_not_enforced :
    get_setting dbC5 "min_withdraw" = some 200 ∧
    (request_withdrawal dbC5 7 150 "bKash" "017" 0).1 = some 1 ∧
    (request_withdrawal dbC5 7 150 "bKash" "017" 0).2.withdrawals =
      [{ id := 1, user_id := 7, amount := 150, method := "bKash",
         number := "017", status := "pending", request_date := 0 }] := by
  refine ⟨?_, ?_, ?_⟩ <;> with_unfolding_all rfl

/-- **C7, counterexample.** The claim says a read of an absent settings key
yields a defined numeric default; `get_setting` returns Python `None`
(here `none`) instead: on a settings store with no rows, reading
`min_withdraw` yields no number. -/
theorem C7_counterexample_absent_key_yields_none :
    get_setting dbC7 "min_withdraw" = none := by
  with_unfolding_all rfl

/-- **C7, amended.** Reading a settings key that is present on no row
returns `none` (Python `None`) — not a numeric default; the code does not
crash only because the four recognized keys are seeded with defaults when
the tables are created. -/
theorem C7_amended_absent_key_reads_none (db : DB) (key : String)
    (h : ∀ kv ∈ db.settings, kv.1 ≠ key) :
    get_setting db key = none := by
  unfold get_setting
  cases hf : db.settings.find? (fun kv => kv.1 == key) with
  | none => rfl
  | some kv =>
    have hmem := List.mem_of_find?_eq_some hf
    have hb := List.find?_some hf
    exact absurd (eq_of_beq hb) (h kv hmem)

/-- **C7, witness.** The amended theorem applied to the empty settings
store and the key `gmail_price`. -/
theorem C7_amended_witness : get_setting dbC7 "gmail_price" = none :=
  C7_amended_absent_key_reads_none dbC7 "gmail_price" (by decide)

/-- **C6.** A promo code every one of whose rows with this code has
`uses_left` at most 0 or `is_active` false is rejected by `use_promo_code`
(as CodeExhausted or CodeNotFound) with the state unchanged. -/
theorem C6_exhausted_or_inactive_code_rejected (db : DB) (code : String)
    (uid : Nat)
    (h : ∀ p ∈ db.promo_codes, p.code = code →
      p.uses_left ≤ 0 ∨ p.is_active = false) :
    (use_promo_code db code uid).1.1 = false ∧
    (use_promo_code db code uid).2 = db := by
  unfold use_promo_code
  cases hf : db.promo_codes.find? (fun p => p.code == code && p.is_active) with
  | none => exact ⟨rfl, rfl⟩
  | some promo =>
    have hpred := List.find?_some hf
    rw [Bool.and_eq_true] at hpred
    have hmem := List.mem_of_find?_eq_some hf
    have huse : promo.uses_left ≤ 0 := by
      rcases h promo hmem (eq_of_beq hpred.1) with h1 | h2
      · exact h1
      · rw [h2] at hpred
        exact absurd hpred.2 Bool.false_ne_true
    dsimp only
    rw [if_pos huse]
    exact ⟨rfl, rfl⟩

/-- **C6, witness.** The theorem applied to `dbC6`, whose only promo row is
active but exhausted (`uses_left = 0`): the redemption fails and the state
is unchanged. -/
theorem C6_witness :
    (use_promo_code dbC6 "SAVE10" 7).1.1 = false ∧
    (use_promo_code dbC6 "SAVE10" 7).2 = dbC6 :=
  C6_exhausted_or_inactive_code_rejected dbC6 "SAVE10" 7 (by decide)

/-- **C4.** For a user with a row in the store, `add_withdrawal` either
fails (returning Python `None` — InsufficientFunds) and changes nothing,
exactly when the requested amount exceeds the balance, or — when the amount
is at most the balance — deducts the amount from that balance and appends
the pending withdrawal record, returning its fresh id. -/
theorem C4_withdrawal_creation_dichotomy (db : DB) (uid : Nat) (amt : ℚ)
    (method num : String) (now : ℤ) (u : UserRow)
    (hu : get_user db uid = some u) :
    (u.balance < amt ∧ add_withdrawal db uid amt method num now = (none, db))
    ∨ (amt ≤ u.balance ∧
       (add_withdrawal db uid amt method num now).1
         = some db.next_withdrawal_id ∧
       get_user_balance (add_withdrawal db uid amt method num now).2 uid
         = u.balance - amt ∧
       (add_withdrawal db uid amt method num now).2.withdrawals
         = db.withdrawals ++
           [{ id := db.next_withdrawal_id, user_id := uid, amount := amt,
              method := method, number := num, status := "pending",
              request_date := now }]) := by
  have hb : get_user_balance db uid = u.balance := get_user_balance_of_get_user hu
  by_cases h : u.balance < amt
  · left
    refine ⟨h, ?_⟩
    unfold add_withdrawal
    rw [hb, if_pos h]
  · right
    push_neg at h
    have heq : add_withdrawal db uid amt method num now =
        (some db.next_withdrawal_id,
         { db with
           users := db.users.map (fun v =>
             if v.user_id == uid then { v with balance := v.balance - amt }
             else v),
           withdrawals := db.withdrawals ++
             [{ id := db.next_withdrawal_id, user_id := uid, amount := amt,
                method := method, number := num, status := "pending",
                request_date := now }],
           next_withdrawal_id := db.next_withdrawal_id + 1 }) := by
      unfold add_withdrawal
      rw [hb, if_neg (not_lt.mpr h)]
    refine ⟨h, ?_, ?_, ?_⟩
    · rw [heq]
    · rw [heq]
      have hfind := find?_user_map uid
        (fun v => { v with balance := v.balance - amt }) (fun v => rfl) db.users
      unfold get_user at hu
      unfold get_user_balance
      dsimp only
      rw [hfind, hu]
      rfl
    · rw [heq]

/-- **C4, witness.** The theorem applied to `dbC4` (user 7, balance 200)
and a request for 150: the sufficient-funds branch fires, balance drops to
50, the pending record is appended. -/
theorem C4_witness :
    ((200 : ℚ) < 150 ∧
       add_withdrawal dbC4 7 150 "bKash" "017" 0 = (none, dbC4))
    ∨ ((150 : ℚ) ≤ 200 ∧
       (add_withdrawal dbC4 7 150 "bKash" "017" 0).1 = some 1 ∧
       get_user_balance (add_withdrawal dbC4 7 150 "bKash" "017" 0).2 7
         = 200 - 150 ∧
       (add_withdrawal dbC4 7 150 "bKash" "017" 0).2.withdrawals =
         dbC4.withdrawals ++
           [{ id := 1, user_id := 7, amount := 150, method := "bKash",
              number := "017", status := "pending", request_date := 0 }]) :=
  C4_withdrawal_creation_dichotomy dbC4 7 150 "bKash" "017" 0
    { baseUser with balance := 200 } (by with_unfolding_all rfl)

/-- **C9.** Rejecting a submission currently in status `success` reports
success and debits the owner's balance by exactly the amount snapshotted on
the submission row — `db` (and so the `gmail_price` setting) is arbitrary,
and the settings never enter the result — and decrements the owner's
`gmail_sell_count` by one. -/
theorem C9_reject_after_success_debits_snapshot (db : DB) (gid : Nat)
    (reason : Option String) (g : SubmissionRow) (u : UserRow)
    (hg : get_gmail_by_id db gid = some g)
    (hst : g.status = "success")
    (hu : get_user db g.user_id = some u) :
    (update_gmail_status db gid "rejected" reason).1 = true ∧
    get_user_balance (update_gmail_status db gid "rejected" reason).2 g.user_id
      = u.balance - g.amount ∧
    get_user_sell_count (update_gmail_status db gid "rejected" reason).2
      g.user_id = u.gmail_sell_count - 1 := by
  obtain ⟨db1, husers, heq⟩ :
      ∃ db1 : DB, db1.users = db.users ∧
        update_gmail_status db gid "rejected" reason =
          (true, update_sell_count (update_balance db1 g.user_id (-g.amount))
            g.user_id (-1)) := by
    refine ⟨{ db with gmail_submissions :=
        db.gmail_submissions.map (fun s => if s.id == gid then
          { s with status := "rejected", reject_reason := reason } else s) },
      rfl, ?_⟩
    unfold update_gmail_status
    rw [hg]
    dsimp only
    rw [if_neg (by decide), if_pos (by rw [hst]; decide)]
  have hu1 : get_user db1 g.user_id = some u := by
    unfold get_user
    rw [husers]
    exact hu
  have h2 := get_user_update_balance db1 g.user_id (-g.amount) u hu1
  have h3 := get_user_update_sell_count
    (update_balance db1 g.user_id (-g.amount)) g.user_id (-1) _ h2
  rw [heq]
  refine ⟨rfl, ?_, ?_⟩
  · rw [get_user_balance_of_get_user h3]
    show u.balance + -g.amount = u.balance - g.amount
    ring
  · rw [get_user_sell_count_of_get_user h3]
    show u.gmail_sell_count + -1 = u.gmail_sell_count - 1
    ring

/-- **C9, witness.** The theorem applied to `dbC9`, where the `gmail_price`
setting has been raised to 9 after submission 1 (snapshotted amount 5) was
approved: rejecting it debits 5, not 9. -/
theorem C9_witness :
    (update_gmail_status dbC9 1 "rejected" (some "bad")).1 = true ∧
    get_user_balance (update_gmail_status dbC9 1 "rejected" (some "bad")).2 7
      = 5 - 5 ∧
    get_user_sell_count (update_gmail_status dbC9 1 "rejected" (some "bad")).2 7
      = 1 - 1 :=
  C9_reject_after_success_debits_snapshot dbC9 1 (some "bad")
    { id := 1, user_id := 7, gmail := "a@gmail.com", password := "pw",
      amount := 5, status := "success", submission_date := 0,
      reject_reason := none }
    { baseUser with balance := 5, gmail_sell_count := 1 }
    (by with_unfolding_all rfl) rfl (by with_unfolding_all rfl)

/-- **C8** (code bug, failing input). The first-ever claim succeeds,
crediting the seeded 2.0 and storing `now` — whose microsecond field is
nonzero, as `datetime.now()` essentially always returns — through the
adapter.  From then on `strptime(..., '%Y-%m-%d %H:%M:%S')` raises
ValueError on the stored text, so a claim one hour later faults instead of
answering AlreadyClaimed, and a claim thirty hours later faults instead of
crediting the bonus. -/
theorem C8_second_claim_raises_not_already_claimed :
    show_daily_bonus dbC8 7 ⟨0, 123456⟩ = some (true, dbC8b) ∧
    show_daily_bonus dbC8b 7 ⟨3600, 654321⟩ = none ∧
    show_daily_bonus dbC8b 7 ⟨108000, 654321⟩ = none := by
  refine ⟨?_, ?_, ?_⟩ <;> with_unfolding_all rfl

/-- **C10.** When the active-code lookup succeeds with at least one use
left but the redeeming `user_id` has no row, `use_promo_code` still reports
success and decrements the code's `uses_left`, while the `UPDATE` behind
`update_balance` matches no row: the users table is unchanged, so the
credit lands on nobody. -/
theorem C10_redeem_by_absent_user_consumes_use (db : DB) (code : String)
    (uid : Nat) (pr : PromoRow)
    (hp : db.promo_codes.find? (fun q => q.code == code && q.is_active)
      = some pr)
    (huses : 1 ≤ pr.uses_left)
    (hno : ∀ v ∈ db.users, v.user_id ≠ uid) :
    (use_promo_code db code uid).1.1 = true ∧
    (use_promo_code db code uid).2.users = db.users ∧
    { pr with uses_left := pr.uses_left - 1 }
      ∈ (use_promo_code db code uid).2.promo_codes := by
  have hcode : (pr.code == code) = true := by
    have hpred := List.find?_some hp
    rw [Bool.and_eq_true] at hpred
    exact hpred.1
  have hmem := List.mem_of_find?_eq_some hp
  unfold use_promo_code
  rw [hp]
  dsimp only
  rw [if_neg (by omega)]
  refine ⟨rfl, ?_, ?_⟩
  · show (db.users.map fun v =>
        if v.user_id == uid then { v with balance := v.balance + pr.amount }
        else v)
      = db.users
    refine map_if_id _ _ db.users ?_
    intro x hx
    exact beq_eq_false_iff_ne.mpr (hno x hx)
  · have hrowImg : ({ pr with uses_left := pr.uses_left - 1 } : PromoRow)
        = (fun q : PromoRow => if q.code == code then
            { q with uses_left := q.uses_left - 1 } else q) pr := by
      dsimp only
      rw [if_pos hcode]
    rw [hrowImg]
    exact List.mem_map_of_mem _ hmem

/-- **C10, witness.** The theorem applied to `dbC10`, whose only user row
is user 7, redeeming as the absent user 99: success is reported, the code
drops from 3 to 2 uses, the users table is untouched. -/
theorem C10_witness :
    (use_promo_code dbC10 "BONUS5" 99).1.1 = true ∧
    (use_promo_code dbC10 "BONUS5" 99).2.users = dbC10.users ∧
    ({ code := "BONUS5", amount := 5, uses_left := 3 - 1, is_active := true }
        : PromoRow)
      ∈ (use_promo_code dbC10 "BONUS5" 99).2.promo_codes :=
  C10_redeem_by_absent_user_consumes_use dbC10 "BONUS5" 99
    { code := "BONUS5", amount := 5, uses_left := 3, is_active := true }
    (by with_unfolding_all rfl) (by decide) (by decide)
